import Mathlib

/-!
Verification of the provider access layer (reactive entity cache with
optimistic updates), the message-pause routine, and the preference
configuration tables of this repository.

Hooks in `src/hooks/useProviders.ts` and `src/hooks/useMessageOperation.ts`
are embedded directly.  The `ProviderService` backing the hooks is not part
of the source tree; wherever a definition stands in for it, its doc comment
starts with `Modelled from the spec:` and names the missing piece.
-/

set_option maxHeartbeats 1000000

namespace CherryStudio

/-! ## Data model -/

/-- Theme mode from `@/types`, referenced by the preference schema. -/
inductive ThemeMode
  | light
  | dark
  | system
deriving Repr, DecidableEq

/-- A provider entity (`Provider` from `@/types/assistant`), reduced to the
fields the specification and claims exercise: a stable string id, a name and
the `enabled` flag used by `useAllProviders`' sort. -/
structure Provider where
  id : String
  name : String
  enabled : Bool
deriving Repr, DecidableEq

/-- A caller-supplied change for `update(id, change)`: a record of optional
fields merged over the current value (`Partial<Omit<Provider, 'id'>>`). -/
structure ProviderPatch where
  name : Option String := none
  enabled : Option Bool := none
deriving Repr, DecidableEq

/-- Merge a patch over a provider: every present field of the patch replaces
the corresponding field of the provider; the id is never changed. -/
def applyPatch (p : Provider) (c : ProviderPatch) : Provider :=
  { p with name := c.name.getD p.name, enabled := c.enabled.getD p.enabled }

/-! ## Preference configuration tables
(`src/shared/data/preference/preferenceSchemas.ts`,
 `src/shared/data/preference/preferenceTypes.ts`) -/

/-- A preference value: the union of the value types appearing in
`PreferenceSchemas['default']` (string, boolean, number-or-undefined,
theme mode). -/
inductive PrefValue
  | str (v : String)
  | boolean (v : Bool)
  | num (v : Nat)
  | undef
  | theme (v : ThemeMode)
deriving Repr, DecidableEq

/-- The preference keys declared by the interface
`PreferenceSchemas['default']` in `preferenceTypes.ts`, in declaration
order. -/
def preferenceSchemaKeys : List String :=
  [ "user.avatar"
  , "user.name"
  , "user.id"
  , "ui.theme_mode"
  , "topic.current_id"
  , "websearch.search_with_time"
  , "websearch.max_results"
  , "websearch.override_search_service"
  , "websearch.content_limit"
  , "app.initialization_version" ]

/-- `DefaultPreferences.default` from `preferenceSchemas.ts`: the default
value table, as the association list written in the source. -/
def DefaultPreferences_default : List (String × PrefValue) :=
  [ ("user.avatar", .str "")
  , ("user.name", .str "Cherry Studio")
  , ("user.id", .str "uuid()")
  , ("ui.theme_mode", .theme .system)
  , ("topic.current_id", .str "")
  , ("websearch.search_with_time", .boolean true)
  , ("websearch.max_results", .num 5)
  , ("websearch.override_search_service", .boolean true)
  , ("websearch.content_limit", .num 2000)
  , ("app.initialization_version", .num 0) ]

/-- `PreferenceDescriptions` from `preferenceSchemas.ts`: key to
human-readable description. -/
def PreferenceDescriptions : List (String × String) :=
  [ ("user.avatar", "User avatar image path or URL")
  , ("user.name", "User display name")
  , ("user.id", "Unique user identifier (UUID)")
  , ("ui.theme_mode", "Application theme mode (light/dark/system)")
  , ("topic.current_id", "Currently active conversation topic ID")
  , ("websearch.search_with_time", "Add current date to search queries for recent results")
  , ("websearch.max_results", "Maximum number of search results (1-20)")
  , ("websearch.override_search_service", "Use custom search service configuration")
  , ("websearch.content_limit", "Content length limit for search results (characters)")
  , ("app.initialization_version", "Current version of app data initialization migrations") ]

/-! ## Provider service state

The `ProviderService` singleton consumed by the hooks is not part of the
source tree; its state and operations below are modelled from the spec
(sections 3, 4.1 and 4.2: Entity Cache, DefaultSlot, Subscription
Registry). -/

/-- Modelled from the spec: the `ProviderService` state missing from the
source tree — the keyed entity cache (at most one entry per id), the
distinguished DefaultSlot, the per-id subscription registry and the default
subscription channel, the in-flight-initialization bookkeeping, and a count
of gateway reads issued by initialization. Subscriptions are pairs of an
entity id and a stable callback handle, in registration order. -/
structure ServiceState where
  cache : String → Option Provider
  defaultSlot : Option Provider
  subs : List (String × Nat)
  defaultSubs : List Nat
  pendingInit : Option (List Nat)
  gatewayReads : Nat

/-- Modelled from the spec: `ProviderService.getProviderCached` (the hooks'
`getSnapshot` for a valid id) — the Entity Cache's synchronous, non-blocking
`get(id)`, returning the cached value or absent. -/
def getProviderCached (s : ServiceState) (id : String) : Option Provider :=
  s.cache id

/-- Modelled from the spec: the Subscription Registry's `notify(id)` —
the list of callback handles invoked, a stable snapshot of the
registrations currently held for `id`, in registration order. -/
def notifySubs (s : ServiceState) (id : String) : List Nat :=
  (s.subs.filter (fun e => e.1 = id)).map Prod.snd

/-- Modelled from the spec: the Entity Cache's `put(id, value, optimistic)`
restricted to its effect on the cache map: replaces the entry for `id`. -/
def cachePut (s : ServiceState) (id : String) (v : Provider) : ServiceState :=
  { s with cache := fun i => if i = id then some v else s.cache i }

/-! ## Optimistic Update Coordinator (spec section 4.3)

`ProviderService.updateProvider`, awaited by the hook's `updateProvider`
callback (`useProviders.ts` lines 149-154), is not in the source tree and is
modelled from the spec. The coordinator's synchronous prefix and its
asynchronous resolution are embedded as two functions; the gateway's
eventual answer is passed explicitly to the resolution step. -/

/-- Errors surfaced by the coordinator (spec section 7). -/
inductive UpdateError
  | entityNotFound
  | persistenceFailure
deriving Repr, DecidableEq

/-- An in-flight optimistic mutation (spec section 3, PendingWrite):
the entity id, the optimistic value applied, and the prior confirmed value
kept for rollback. -/
structure PendingWrite where
  entityId : String
  optimisticValue : Provider
  priorConfirmed : Provider
deriving Repr, DecidableEq

/-- Modelled from the spec: the synchronous prefix of
`update(id, change)` (spec section 4.3 steps 1-2). Reads the current value
for `id` (failing with `EntityNotFound` when absent), merges the change over
it, puts the optimistic value and notifies `id`'s subscribers, and records
the PendingWrite. The merged value is a freshly constructed object, so the
put's reference-inequality check always passes and the subscribers are
notified. Returns the new state, the pending write, and the handles
notified. -/
def updateSync (s : ServiceState) (id : String) (c : ProviderPatch) :
    Except UpdateError (ServiceState × PendingWrite × List Nat) :=
  match s.cache id with
  | none => .error .entityNotFound
  | some prev =>
      let optimistic := applyPatch prev c
      .ok (cachePut s id optimistic, ⟨id, optimistic, prev⟩, notifySubs s id)

/-- Modelled from the spec: the asynchronous resolution of an update (spec
section 4.3 steps 4-5), applied when the gateway write completes. On success
the authoritative value is put as confirmed, notifying again only when it
differs (value equality, the choice documented in spec section 9) from the
optimistic guess. On failure the prior confirmed value is rolled back,
subscribers are notified, and a typed `persistenceFailure` is propagated. -/
def updateResolve (s : ServiceState) (pw : PendingWrite)
    (gw : Except Unit Provider) :
    ServiceState × Except UpdateError Unit × List Nat :=
  match gw with
  | .ok v =>
      (cachePut s pw.entityId v, .ok (),
       if v = pw.optimisticValue then [] else notifySubs s pw.entityId)
  | .error _ =>
      (cachePut s pw.entityId pw.priorConfirmed, .error .persistenceFailure,
       notifySubs s pw.entityId)

/-- Modelled from the spec: the whole lifetime of one `update(id, change)`
call — the synchronous prefix followed by the resolution of the gateway
write whose outcome is `gw`. Returns the final state, the result
propagated to the caller, and all notification events in order. -/
def update (s : ServiceState) (id : String) (c : ProviderPatch)
    (gw : Except Unit Provider) :
    ServiceState × Except UpdateError Unit × List Nat :=
  match updateSync s id c with
  | .error e => (s, .error e, [])
  | .ok (s1, pw, n1) =>
      let r := updateResolve s1 pw gw
      (r.1, r.2.1, n1 ++ r.2.2)

/-! ## Default-entity initialization (spec section 4.4)

`ProviderService.initialize`, `getDefaultProvider` and
`subscribeDefaultProvider`, consumed by `useDefaultProvider`, are not in the
source tree and are modelled from the spec. -/

/-- How one `initialize()` call is serviced: resolved immediately from the
populated DefaultSlot, joined onto an initialization already in flight, or
started as the initialization that issues the single gateway read. -/
inductive InitCallOutcome
  | resolvedImmediately
  | joined
  | started
deriving Repr, DecidableEq

/-- Modelled from the spec: the synchronous entry of
`ProviderService.initialize` (spec section 4.4). If the DefaultSlot is
already populated the call resolves at once without contacting the gateway;
if an initialization is in flight the caller joins its waiter list; otherwise
the caller starts the initialization, issuing exactly one gateway read. -/
def initCall (s : ServiceState) (caller : Nat) : ServiceState × InitCallOutcome :=
  match s.defaultSlot with
  | some _ => (s, .resolvedImmediately)
  | none =>
      match s.pendingInit with
      | some waiting => ({ s with pendingInit := some (waiting ++ [caller]) }, .joined)
      | none =>
          ({ s with pendingInit := some [caller], gatewayReads := s.gatewayReads + 1 },
           .started)

/-- A sequence of `initialize()` calls, in call order. -/
def runInitCalls (s : ServiceState) (callers : List Nat) : ServiceState :=
  callers.foldl (fun st c => (initCall st c).1) s

/-- Modelled from the spec: successful completion of the in-flight
initialization — the gateway read resolves with `v`, the DefaultSlot is
populated, every waiting caller is resolved, and the default subscribers are
notified once. Returns the new state, the resolved callers, and the handles
notified. -/
def initResolve (s : ServiceState) (v : Provider) : ServiceState × List Nat × List Nat :=
  ({ s with defaultSlot := some v, pendingInit := none },
   s.pendingInit.getD [], s.defaultSubs)

/-- Modelled from the spec: failed completion of the in-flight
initialization — the DefaultSlot stays uninitialized, every waiting caller is
rejected with the same error, and a later `initialize()` may retry. -/
def initReject (s : ServiceState) : ServiceState × List Nat :=
  ({ s with pendingInit := none }, s.pendingInit.getD [])

/-- A whole initialization episode: a burst of `initialize()` calls followed
by the resolution of the single gateway read with value `v`. -/
def initializeEpisode (s : ServiceState) (callers : List Nat) (v : Provider) :
    ServiceState × List Nat × List Nat :=
  initResolve (runInitCalls s callers) v

/-- The error condition of the default entity (spec section 7). -/
inductive DefaultError
  | uninitializedDefault
deriving Repr, DecidableEq

/-- Modelled from the spec: `ProviderService.getDefaultProvider` — the
DefaultSlot read `getDefault()` (spec section 4.1), signalling the
`UninitializedDefault` condition until the slot has been populated. -/
def getDefault (s : ServiceState) : Except DefaultError Provider :=
  match s.defaultSlot with
  | none => .error .uninitializedDefault
  | some v => .ok v

/-- `useDefaultProvider`'s `getSnapshot` (`useProviders.ts` lines 189-196):
tries `getDefaultProvider()` and maps the uninitialized condition caught to
an absent result. -/
def defaultProviderSnapshot (s : ServiceState) : Option Provider :=
  match getDefault s with
  | .ok v => some v
  | .error _ => none

/-- Modelled from the spec: the Entity Cache's `setDefault(value)` (spec
section 4.1), populating the DefaultSlot. -/
def setDefault (s : ServiceState) (v : Provider) : ServiceState :=
  { s with defaultSlot := some v }

/-- Modelled from the spec: the Subscription Registry's `subscribe(id, cb)`
(spec section 4.2), appending the registration in insertion order. -/
def subscribeProvider (s : ServiceState) (id : String) (h : Nat) : ServiceState :=
  { s with subs := s.subs ++ [(id, h)] }

/-- Modelled from the spec: unsubscription — removes exactly the given
registration, idempotently. -/
def unsubscribeProvider (s : ServiceState) (id : String) (h : Nat) : ServiceState :=
  { s with subs := s.subs.filter (fun e => e ≠ (id, h)) }

/-- Modelled from the spec: the default-channel `subscribeDefault(cb)`. -/
def subscribeDefaultProvider (s : ServiceState) (h : Nat) : ServiceState :=
  { s with defaultSubs := s.defaultSubs ++ [h] }

/-- Modelled from the spec: the default-channel unsubscription. -/
def unsubscribeDefaultProvider (s : ServiceState) (h : Nat) : ServiceState :=
  { s with defaultSubs := s.defaultSubs.filter (fun e => e ≠ h) }

/-! ## Read-miss loading (spec sections 4.5 and 6) -/

/-- Modelled from the spec: the load issued by `ProviderService.getProvider`
for an entity absent from the cache, with the gateway's eventual outcome
passed explicitly. On success the fetched entity is put in the cache and
`id`'s subscribers are notified; on failure the state is unchanged — the
cache remains absent and the error is surfaced to the requester, not
cached. Returns the new state, the requester's result, and the handles
notified. -/
def loadEntity (s : ServiceState) (id : String) (gw : Except Unit Provider) :
    ServiceState × Except Unit Provider × List Nat :=
  match gw with
  | .ok v => (cachePut s id v, .ok v, notifySubs s id)
  | .error e => (s, .error e, [])

/-! ## The `useProvider` hook (`useProviders.ts` lines 69-163) -/

/-- JavaScript's `String.prototype.trim()`: drop whitespace from both ends.
Embedded as an executable function over the string's characters. -/
def jsTrim (s : String) : String :=
  ⟨((s.data.dropWhile Char.isWhitespace).reverse.dropWhile Char.isWhitespace).reverse⟩

/-- `useProvider`'s validity check (`useProviders.ts` line 72): the id is
valid when it is truthy (non-empty) and does not trim to the empty string. -/
def isValidId (providerId : String) : Bool :=
  (providerId != "") && (jsTrim providerId != "")

/-- `useProvider`'s `subscribe` callback (lines 79-89), by its effect on the
registry: for an invalid id it registers nothing (and hands back a no-op
unsubscribe); otherwise it registers the callback on the provider id. -/
def useProvider_subscribe (s : ServiceState) (providerId : String) (h : Nat) :
    ServiceState :=
  if isValidId providerId then subscribeProvider s providerId h else s

/-- `useProvider`'s `getSnapshot` callback (lines 94-99): `null` for an
invalid id, otherwise the cached value. -/
def useProvider_getSnapshot (s : ServiceState) (providerId : String) :
    Option Provider :=
  if isValidId providerId then getProviderCached s providerId else none

/-- The loading effect of `useProvider` (lines 121-142), reduced to its
decision: a gateway load is issued exactly when the id is valid and the
snapshot is absent (the Uninitialized to Loading transition of the
per-entity loading state machine, spec section 4.5). -/
def loadTriggered (providerId : String) (snapshot : Option Provider) : Bool :=
  isValidId providerId && snapshot.isNone

/-- The `isLoading` state set synchronously by the loading effect
(lines 121-142): false for an invalid id, true when a load is being issued,
false when the snapshot is already present. -/
def effectIsLoading (providerId : String) (snapshot : Option Provider) : Bool :=
  if isValidId providerId = false then false
  else if snapshot.isNone then true
  else false

/-- What `useProvider` returns (lines 158-162). -/
structure UseProviderResult where
  provider : Option Provider
  isLoading : Bool
deriving Repr, DecidableEq

/-- The value `useProvider` hands its consumer, given the current service
state and the hook's `isLoading` state: the snapshot, and
`!provider && isLoading` as the public loading flag (line 160). -/
def useProviderResult (s : ServiceState) (providerId : String)
    (isLoadingState : Bool) : UseProviderResult :=
  let provider := useProvider_getSnapshot s providerId
  { provider := provider, isLoading := provider.isNone && isLoadingState }

/-! ## Operation sequences over the service -/

/-- One operation against the provider service: an update (with the
gateway's outcome for its write), a read-miss load (with the gateway's
outcome), an `initialize()` call, the failed or successful completion of an
in-flight initialization, a direct DefaultSlot population, or a
(de)registration on either subscription channel. -/
inductive Op
  | updateOp (id : String) (c : ProviderPatch) (gw : Except Unit Provider)
  | loadOp (id : String) (gw : Except Unit Provider)
  | initCallOp (caller : Nat)
  | initRejectOp
  | initResolveOp (v : Provider)
  | setDefaultOp (v : Provider)
  | subscribeOp (id : String) (h : Nat)
  | unsubscribeOp (id : String) (h : Nat)
  | subscribeDefaultOp (h : Nat)
  | unsubscribeDefaultOp (h : Nat)

/-- The state transition of one operation. -/
def stepOp (s : ServiceState) : Op → ServiceState
  | .updateOp id c gw => (update s id c gw).1
  | .loadOp id gw => (loadEntity s id gw).1
  | .initCallOp caller => (initCall s caller).1
  | .initRejectOp => (initReject s).1
  | .initResolveOp v => (initResolve s v).1
  | .setDefaultOp v => setDefault s v
  | .subscribeOp id h => subscribeProvider s id h
  | .unsubscribeOp id h => unsubscribeProvider s id h
  | .subscribeDefaultOp h => subscribeDefaultProvider s h
  | .unsubscribeDefaultOp h => unsubscribeDefaultProvider s h

/-- Run a sequence of operations in order. -/
def runOps (s : ServiceState) (ops : List Op) : ServiceState :=
  ops.foldl stepOp s

/-- Whether an operation populates the DefaultSlot: only a successful
initialization completion or an explicit `setDefault` does. -/
def populatesDefault : Op → Bool
  | .initResolveOp _ => true
  | .setDefaultOp _ => true
  | _ => false

/-! ## The `useAllProviders` hook (`useProviders.ts` lines 17-42) -/

/-- A raw provider row as returned by the live database query in
`useAllProviders`. The row-to-domain mapper `transformDbToProvider` lives
outside the source tree, so the embedding keeps rows abstract up to the
mapper, which is taken as a parameter. -/
structure DbProviderRow where
  rowId : String
  rowName : String
  rowEnabled : Bool
deriving Repr, DecidableEq

/-- The sort comparator of `useAllProviders` (lines 25-28), as the total
preorder it induces: cmp(a,b) is 0 when the enabled flags agree, -1 when a
is enabled, 1 otherwise, so a precedes-or-ties b exactly when a is enabled
or b is not. -/
def enabledFirst (a b : Provider) : Bool :=
  a.enabled || !b.enabled

/-- What `useAllProviders` returns (lines 31-41). -/
structure AllProvidersResult where
  providers : List Provider
  isLoading : Bool
deriving Repr, DecidableEq

/-- `useAllProviders` (lines 17-42): transform the raw rows and sort them
enabled-first; but when the query has not completed (`updatedAt` absent),
the rows are absent, or the row list is empty, return an empty list with
`isLoading` true. -/
def useAllProviders (transform : DbProviderRow → Provider)
    (updatedAt : Option Nat) (rawProviders : Option (List DbProviderRow)) :
    AllProvidersResult :=
  let processedProviders :=
    match rawProviders with
    | none => []
    | some rows =>
        if rows.isEmpty then []
        else (rows.map transform).mergeSort enabledFirst
  match updatedAt, rawProviders with
  | none, _ => ⟨[], true⟩
  | some _, none => ⟨[], true⟩
  | some _, some rows =>
      if rows.isEmpty then ⟨[], true⟩ else ⟨processedProviders, false⟩

/-! ## `pauseMessages` (`src/hooks/useMessageOperation.ts` lines 22-34) -/

/-- A chat message, reduced to the fields `pauseMessages` reads: its status
string and the optional `askId` linking it to the completion request that
produced it (absent models both a missing and would-be-undefined field). -/
structure Message where
  status : String
  askId : Option String
deriving Repr, DecidableEq

/-- A topic, reduced to the fields `pauseMessages` touches. -/
structure Topic where
  id : String
  isLoading : Bool
deriving Repr, DecidableEq

/-- One step of JavaScript `new Set(...)` construction: append the element
unless already present, preserving first-occurrence order. -/
def insertOnce (l : List String) (x : String) : List String :=
  if x ∈ l then l else l ++ [x]

/-- `[...new Set(list)]`: insertion-order deduplication. -/
def jsSetDedup (l : List String) : List String :=
  l.foldl insertOnce []

/-- The distinct in-flight ask ids computed at `useMessageOperation.ts`
lines 26-27: keep the messages whose status is 'processing' or 'pending',
project their askIds, drop falsy ids (absent or empty string), and
deduplicate preserving first occurrence. -/
def streamingAskIds (msgs : List Message) : List String :=
  jsSetDedup
    (((msgs.filter
        (fun m => m.status == "processing" || m.status == "pending")).filterMap
          (fun m => m.askId)).filter (fun aid => aid != ""))

/-- `pauseMessages` (lines 22-34): look up the topic's messages; when the
lookup yields nothing, return without cancelling anything and leave the
topic unchanged; otherwise call `abortCompletion` once per distinct
streaming askId and set the topic's `isLoading` to false. Returns the
`abortCompletion` calls in order together with the resulting topic. -/
def pauseMessages (topic : Topic) (topicMessages : Option (List Message)) :
    List String × Topic :=
  match topicMessages with
  | none => ([], topic)
  | some msgs => (streamingAskIds msgs, { topic with isLoading := false })

end CherryStudio

namespace CherryStudio

/-- A handle not registered on `id` receives no notification for `id`. -/
theorem notifySubs_count_not_mem (subs : List (String × Nat)) (id : String)
    (h : Nat) (hnm : (id, h) ∉ subs) :
    ((subs.filter (fun e => e.1 = id)).map Prod.snd).count h = 0 := by
  induction subs with
  | nil => simp
  | cons e rest ih =>
      have h1 : e ≠ (id, h) := fun hc => hnm (hc ▸ List.mem_cons_self e rest)
      have h2 : (id, h) ∉ rest := fun hc => hnm (List.mem_cons_of_mem e hc)
      by_cases hid : e.1 = id
      · have hh : e.2 ≠ h := by
          intro hc
          exact h1 (by cases e; cases hid; cases hc; rfl)
        simp [List.filter_cons, hid, List.count_cons, hh, ih h2]
      · simp [List.filter_cons, hid, ih h2]

/-- With a duplicate-free registry, a handle registered on `id` receives the
notification for `id` exactly once per dispatch. -/
theorem notifySubs_count_mem (subs : List (String × Nat)) (id : String)
    (h : Nat) (hnodup : subs.Nodup) (hmem : (id, h) ∈ subs) :
    ((subs.filter (fun e => e.1 = id)).map Prod.snd).count h = 1 := by
  induction subs with
  | nil => cases hmem
  | cons e rest ih =>
      obtain ⟨henm, hrnd⟩ := List.nodup_cons.mp hnodup
      rcases List.mem_cons.mp hmem with he | hrest
      · have hrest' : (id, h) ∉ rest := by
          rw [he]; exact henm
        rw [← he]
        simp [List.filter_cons, List.count_cons,
          notifySubs_count_not_mem rest id h hrest']
      · have h1 : e ≠ (id, h) := by
          intro hc; rw [hc] at henm; exact henm hrest
        by_cases hid : e.1 = id
        · have hh : e.2 ≠ h := by
            intro hc
            exact h1 (by cases e; cases hid; cases hc; rfl)
          simp [List.filter_cons, hid, List.count_cons, hh, ih hrnd hrest]
        · simp [List.filter_cons, hid, ih hrnd hrest]

/-- C1: for every cached entity id and patch, the synchronous prefix of
`update(id, change)` applies the merged optimistic value to the cache and
notifies each subscriber registered on `id` exactly once: immediately after
it returns, `getProviderCached` yields the merge of the change over the
previous value, and every registered handle occurs exactly once among the
notifications fired. -/
theorem updateSync_optimistic (s : ServiceState) (id : String)
    (c : ProviderPatch) (prev : Provider)
    (hcache : s.cache id = some prev) (hnodup : s.subs.Nodup) :
    ∃ out, updateSync s id c = .ok out ∧
      getProviderCached out.1 id = some (applyPatch prev c) ∧
      ∀ h, (id, h) ∈ s.subs → out.2.2.count h = 1 := by
  refine ⟨(cachePut s id (applyPatch prev c), ⟨id, applyPatch prev c, prev⟩,
           notifySubs s id), ?_, ?_, ?_⟩
  · unfold updateSync
    rw [hcache]
  · simp [getProviderCached, cachePut]
  · intro h hmem
    exact notifySubs_count_mem s.subs id h hnodup hmem

/-- Witness for C1: a concrete cached provider with two subscribers on its
id; the optimistic merge lands in the cache and each subscriber is notified
once. -/
theorem updateSync_optimistic_witness :
    ∃ out,
      updateSync
        ⟨fun i => if i = "p1" then some ⟨"p1", "OpenAI", false⟩ else none,
         none, [("p1", 7), ("p2", 9), ("p1", 8)], [], none, 0⟩
        "p1" ⟨none, some true⟩ = .ok out ∧
      getProviderCached out.1 "p1"
        = some (applyPatch ⟨"p1", "OpenAI", false⟩ ⟨none, some true⟩) ∧
      ∀ h, (("p1", h) ∈ [("p1", 7), ("p2", 9), ("p1", 8)]) → out.2.2.count h = 1 :=
  updateSync_optimistic _ "p1" _ _ (by simp) (by decide)

/-- C2: when the gateway write behind `update(id, change)` fails, the cache
is rolled back exactly — afterwards `getProviderCached` yields the confirmed
value held immediately before the update was issued — and the typed
`persistenceFailure` is propagated to the caller rather than swallowed. -/
theorem update_rollback_exact (s : ServiceState) (id : String)
    (c : ProviderPatch) (prev : Provider)
    (hcache : s.cache id = some prev) :
    getProviderCached (update s id c (.error ())).1 id = some prev ∧
    (update s id c (.error ())).2.1 = .error .persistenceFailure := by
  unfold update updateSync
  rw [hcache]
  simp [updateResolve, getProviderCached, cachePut]

/-- Witness for C2: a failed gateway write on a concrete state restores the
prior value and surfaces the typed failure. -/
theorem update_rollback_exact_witness :
    getProviderCached
      (update
        ⟨fun i => if i = "p1" then some ⟨"p1", "OpenAI", false⟩ else none,
         none, [("p1", 7)], [], none, 0⟩
        "p1" ⟨some "Renamed", none⟩ (.error ())).1 "p1"
      = some ⟨"p1", "OpenAI", false⟩ ∧
    (update
        ⟨fun i => if i = "p1" then some ⟨"p1", "OpenAI", false⟩ else none,
         none, [("p1", 7)], [], none, 0⟩
        "p1" ⟨some "Renamed", none⟩ (.error ())).2.1
      = .error .persistenceFailure :=
  update_rollback_exact _ "p1" _ _ (by simp)

/-- Every element of a duplicate-free list of handles is counted once. -/
theorem count_one_of_nodup (l : List Nat) (x : Nat) (hnd : l.Nodup)
    (hm : x ∈ l) : l.count x = 1 := by
  induction l with
  | nil => cases hm
  | cons a rest ih =>
      obtain ⟨hna, hrnd⟩ := List.nodup_cons.mp hnd
      rcases List.mem_cons.mp hm with hx | hx
      · subst hx
        simp [List.count_cons, List.count_eq_zero.mpr hna]
      · have hax : x ≠ a := by
          intro hc; rw [hc] at hx; exact hna hx
        simp [List.count_cons, hax, ih hrnd hx]

/-- While an initialization is in flight and the DefaultSlot is empty,
further `initialize()` calls only join the waiter list: no state change
beyond the waiters, in particular no further gateway read. -/
theorem runInitCalls_inflight (callers : List Nat) :
    ∀ (s : ServiceState) (l : List Nat), s.defaultSlot = none →
      s.pendingInit = some l →
      runInitCalls s callers = { s with pendingInit := some (l ++ callers) } := by
  induction callers with
  | nil =>
      intro s l hslot hpend
      cases s
      simp_all [runInitCalls]
  | cons c rest ih =>
      intro s l hslot hpend
      have hstep : (initCall s c).1 = { s with pendingInit := some (l ++ [c]) } := by
        simp [initCall, hslot, hpend]
      have h0 : runInitCalls s (c :: rest) = runInitCalls (initCall s c).1 rest := rfl
      rw [h0, hstep, ih { s with pendingInit := some (l ++ [c]) } (l ++ [c]) hslot rfl]
      simp

/-- From a fresh state, a burst of `initialize()` calls issues exactly one
gateway read and queues every caller. -/
theorem runInitCalls_fresh (s : ServiceState) (first : Nat) (rest : List Nat)
    (hslot : s.defaultSlot = none) (hpend : s.pendingInit = none) :
    runInitCalls s (first :: rest)
      = { s with pendingInit := some (first :: rest), gatewayReads := s.gatewayReads + 1 } := by
  have hstep : (initCall s first).1
      = { s with pendingInit := some [first], gatewayReads := s.gatewayReads + 1 } := by
    simp [initCall, hslot, hpend]
  have h0 : runInitCalls s (first :: rest) = runInitCalls (initCall s first).1 rest := rfl
  rw [h0, hstep,
    runInitCalls_inflight rest
      { s with pendingInit := some [first], gatewayReads := s.gatewayReads + 1 }
      [first] hslot rfl]
  simp

/-- C3: `initialize()` is idempotent and coalescing. With the DefaultSlot
populated, a call resolves immediately with no state change and no gateway
read. From an uninitialized state, N concurrent calls — one starting, the
rest joining the in-flight initialization — issue exactly one gateway read;
when it resolves, all N callers are resolved, they all observe the same
populated DefaultSlot value, and each default subscriber is notified exactly
once. -/
theorem initialize_idempotent_coalescing (spop s : ServiceState)
    (v w : Provider) (first : Nat) (rest : List Nat)
    (hpop : spop.defaultSlot = some w)
    (hslot : s.defaultSlot = none) (hpend : s.pendingInit = none)
    (hnodup : s.defaultSubs.Nodup) :
    initCall spop first = (spop, .resolvedImmediately) ∧
    (runInitCalls s (first :: rest)).gatewayReads = s.gatewayReads + 1 ∧
    (initializeEpisode s (first :: rest) v).2.1 = first :: rest ∧
    getDefault (initializeEpisode s (first :: rest) v).1 = .ok v ∧
    ∀ h, h ∈ s.defaultSubs →
      (initializeEpisode s (first :: rest) v).2.2.count h = 1 := by
  have hrun := runInitCalls_fresh s first rest hslot hpend
  refine ⟨by simp [initCall, hpop], by rw [hrun], ?_, ?_, ?_⟩
  · simp [initializeEpisode, hrun, initResolve]
  · simp [initializeEpisode, hrun, initResolve, getDefault]
  · intro h hm
    have hsubs : (initializeEpisode s (first :: rest) v).2.2 = s.defaultSubs := by
      simp [initializeEpisode, hrun, initResolve]
    rw [hsubs]
    exact count_one_of_nodup s.defaultSubs h hnodup hm

/-- Witness for C3: a populated state resolves a call immediately; from a
fresh state, three concurrent calls yield one gateway read, three resolved
callers, a populated slot, and one notification per default subscriber. -/
theorem initialize_idempotent_coalescing_witness :
    initCall ⟨fun _ => none, some ⟨"d", "Default", true⟩, [], [], none, 3⟩ 1
      = (⟨fun _ => none, some ⟨"d", "Default", true⟩, [], [], none, 3⟩,
         .resolvedImmediately) ∧
    (runInitCalls ⟨fun _ => none, none, [], [5, 6], none, 0⟩ (1 :: [2, 3])).gatewayReads
      = 0 + 1 ∧
    (initializeEpisode ⟨fun _ => none, none, [], [5, 6], none, 0⟩ (1 :: [2, 3])
        ⟨"d", "Default", true⟩).2.1 = 1 :: [2, 3] ∧
    getDefault (initializeEpisode ⟨fun _ => none, none, [], [5, 6], none, 0⟩
        (1 :: [2, 3]) ⟨"d", "Default", true⟩).1 = .ok ⟨"d", "Default", true⟩ ∧
    ∀ h, h ∈ ([5, 6] : List Nat) →
      (initializeEpisode ⟨fun _ => none, none, [], [5, 6], none, 0⟩ (1 :: [2, 3])
          ⟨"d", "Default", true⟩).2.2.count h = 1 :=
  initialize_idempotent_coalescing
    ⟨fun _ => none, some ⟨"d", "Default", true⟩, [], [], none, 3⟩
    ⟨fun _ => none, none, [], [5, 6], none, 0⟩
    ⟨"d", "Default", true⟩ ⟨"d", "Default", true⟩ 1 [2, 3]
    rfl rfl rfl (by decide)

/-- `update` never touches the DefaultSlot. -/
theorem update_defaultSlot (s : ServiceState) (id : String) (c : ProviderPatch)
    (gw : Except Unit Provider) :
    (update s id c gw).1.defaultSlot = s.defaultSlot := by
  unfold update updateSync
  cases hc : s.cache id with
  | none => rfl
  | some prev =>
      cases gw with
      | ok v => simp [updateResolve, cachePut]
      | error e => simp [updateResolve, cachePut]

/-- A non-populating operation leaves the DefaultSlot untouched. -/
theorem stepOp_defaultSlot (s : ServiceState) (op : Op)
    (hop : populatesDefault op = false) :
    (stepOp s op).defaultSlot = s.defaultSlot := by
  cases op with
  | updateOp id c gw => exact update_defaultSlot s id c gw
  | loadOp id gw => cases gw with
      | ok v => rfl
      | error e => rfl
  | initCallOp caller =>
      show (initCall s caller).1.defaultSlot = s.defaultSlot
      unfold initCall
      cases hs : s.defaultSlot with
      | none => cases hp : s.pendingInit <;> simp [hs]
      | some v => simp [hs]
  | initRejectOp => rfl
  | initResolveOp v => simp [populatesDefault] at hop
  | setDefaultOp v => simp [populatesDefault] at hop
  | subscribeOp id h => rfl
  | unsubscribeOp id h => rfl
  | subscribeDefaultOp h => rfl
  | unsubscribeDefaultOp h => rfl

/-- A sequence of non-populating operations keeps the DefaultSlot empty. -/
theorem runOps_defaultSlot (ops : List Op) :
    ∀ (s : ServiceState), s.defaultSlot = none →
      (∀ op ∈ ops, populatesDefault op = false) →
      (runOps s ops).defaultSlot = none := by
  induction ops with
  | nil => intro s h _; exact h
  | cons op rest ih =>
      intro s hslot hnopop
      show (runOps (stepOp s op) rest).defaultSlot = none
      refine ih (stepOp s op) ?_ (fun o ho => hnopop o (List.mem_cons_of_mem op ho))
      rw [stepOp_defaultSlot s op (hnopop op (List.mem_cons_self op rest))]
      exact hslot

/-- C4: after any operation sequence containing no successful population of
the DefaultSlot (no `setDefault` and no successful `initialize`
completion), reading the default entity signals the `UninitializedDefault`
condition, and the consumer-facing default snapshot of `useDefaultProvider`
maps that condition to an absent result. -/
theorem uninitialized_default_signalled (s : ServiceState) (ops : List Op)
    (hslot : s.defaultSlot = none)
    (hnopop : ∀ op ∈ ops, populatesDefault op = false) :
    getDefault (runOps s ops) = .error .uninitializedDefault ∧
    defaultProviderSnapshot (runOps s ops) = none := by
  have hslot2 : (runOps s ops).defaultSlot = none :=
    runOps_defaultSlot ops s hslot hnopop
  constructor
  · simp [getDefault, hslot2]
  · simp [defaultProviderSnapshot, getDefault, hslot2]

/-- Witness for C4: a sequence of subscriptions, joined and rejected
initializations, a failed update and a failed load never populates the
DefaultSlot, so the default read still signals uninitialized and the
consumer snapshot is absent. -/
theorem uninitialized_default_signalled_witness :
    getDefault (runOps ⟨fun _ => none, none, [], [], none, 0⟩
      [Op.subscribeDefaultOp 5, Op.initCallOp 1, Op.initCallOp 2,
       Op.initRejectOp, Op.updateOp "p1" ⟨none, some true⟩ (.error ()),
       Op.loadOp "p2" (.error ()), Op.unsubscribeDefaultOp 5])
      = .error .uninitializedDefault ∧
    defaultProviderSnapshot (runOps ⟨fun _ => none, none, [], [], none, 0⟩
      [Op.subscribeDefaultOp 5, Op.initCallOp 1, Op.initCallOp 2,
       Op.initRejectOp, Op.updateOp "p1" ⟨none, some true⟩ (.error ()),
       Op.loadOp "p2" (.error ()), Op.unsubscribeDefaultOp 5]) = none :=
  uninitialized_default_signalled _ _ rfl (by
    intro op hop
    simp only [List.mem_cons, List.not_mem_nil, or_false] at hop
    rcases hop with h | h | h | h | h | h | h <;> subst h <;> rfl)

/-- C5: when the gateway load of an entity absent from the cache fails, the
state is unchanged — the snapshot for that id is still absent and the error
is not cached — the error is surfaced to the requester, and a subsequent
read attempt of the valid id re-triggers the load (re-entry into the
Loading state). -/
theorem load_failure_cache_absent (s : ServiceState) (id : String)
    (habsent : s.cache id = none) (hvalid : isValidId id = true) :
    loadTriggered id (getProviderCached s id) = true ∧
    (loadEntity s id (.error ())).1 = s ∧
    getProviderCached (loadEntity s id (.error ())).1 id = none ∧
    (loadEntity s id (.error ())).2.1 = .error () ∧
    loadTriggered id (getProviderCached (loadEntity s id (.error ())).1 id)
      = true := by
  refine ⟨?_, rfl, ?_, rfl, ?_⟩
  · simp [loadTriggered, getProviderCached, habsent, hvalid]
  · simp [loadEntity, getProviderCached, habsent]
  · simp [loadEntity, loadTriggered, getProviderCached, habsent, hvalid]

/-- Witness for C5: a failed load of an uncached id on a concrete state. -/
theorem load_failure_cache_absent_witness :
    loadTriggered "p1" (getProviderCached ⟨fun _ => none, none, [], [], none, 0⟩ "p1")
      = true ∧
    (loadEntity ⟨fun _ => none, none, [], [], none, 0⟩ "p1" (.error ())).1
      = ⟨fun _ => none, none, [], [], none, 0⟩ ∧
    getProviderCached
      (loadEntity ⟨fun _ => none, none, [], [], none, 0⟩ "p1" (.error ())).1 "p1"
      = none ∧
    (loadEntity ⟨fun _ => none, none, [], [], none, 0⟩ "p1" (.error ())).2.1
      = .error () ∧
    loadTriggered "p1"
      (getProviderCached
        (loadEntity ⟨fun _ => none, none, [], [], none, 0⟩ "p1" (.error ())).1 "p1")
      = true :=
  load_failure_cache_absent _ "p1" rfl (by decide)

/-- The enabled-first comparator is transitive. -/
theorem enabledFirst_trans (a b c : Provider) :
    enabledFirst a b → enabledFirst b c → enabledFirst a c := by
  simp only [enabledFirst]
  cases a.enabled <;> cases b.enabled <;> cases c.enabled <;> simp

/-- The enabled-first comparator is total. -/
theorem enabledFirst_total (a b : Provider) :
    enabledFirst a b || enabledFirst b a := by
  simp only [enabledFirst]
  cases a.enabled <;> cases b.enabled <;> simp

/-- C6: for every completed query, the bulk view returned by
`useAllProviders` is sorted enabled-first — every enabled provider precedes
every disabled one — and is a permutation of the transformed input rows. -/
theorem allProviders_enabledFirst_perm (transform : DbProviderRow → Provider)
    (t : Nat) (rows : List DbProviderRow) :
    (useAllProviders transform (some t) (some rows)).providers.Pairwise
      (fun a b => b.enabled = true → a.enabled = true) ∧
    (useAllProviders transform (some t) (some rows)).providers.Perm
      (rows.map transform) := by
  cases rows with
  | nil => simp [useAllProviders]
  | cons r rs =>
      have hres : (useAllProviders transform (some t) (some (r :: rs))).providers
          = ((r :: rs).map transform).mergeSort enabledFirst := rfl
      rw [hres]
      constructor
      · refine (List.sorted_mergeSort enabledFirst_trans enabledFirst_total
          (((r :: rs)).map transform)).imp ?_
        intro a b hab hb
        simp [enabledFirst, hb] at hab
        exact hab
      · exact List.mergeSort_perm ((r :: rs).map transform) enabledFirst

/-- C7 helper: membership in a JavaScript-Set insertion step. -/
theorem mem_insertOnce (l : List String) (x y : String) :
    y ∈ insertOnce l x ↔ y ∈ l ∨ y = x := by
  unfold insertOnce
  by_cases hx : x ∈ l
  · simp only [if_pos hx]
    constructor
    · exact Or.inl
    · rintro (hy | hy)
      · exact hy
      · exact hy ▸ hx
  · simp [if_neg hx]

/-- C7 helper: a JavaScript-Set insertion step preserves freedom from
duplicates. -/
theorem nodup_insertOnce (l : List String) (x : String) (hl : l.Nodup) :
    (insertOnce l x).Nodup := by
  unfold insertOnce
  by_cases hx : x ∈ l
  · simpa [if_pos hx] using hl
  · simp only [if_neg hx]
    simp [List.nodup_append, hl, hx]

/-- C7 helper: the fold building `[...new Set(list)]` yields a
duplicate-free list holding exactly the accumulator's and the input's
elements. -/
theorem jsSetDedup_go (l : List String) :
    ∀ (acc : List String), acc.Nodup →
      (l.foldl insertOnce acc).Nodup ∧
      ∀ y, (y ∈ l.foldl insertOnce acc ↔ y ∈ acc ∨ y ∈ l) := by
  induction l with
  | nil =>
      intro acc hacc
      simpa using hacc
  | cons a rest ih =>
      intro acc hacc
      obtain ⟨hnd, hmem⟩ := ih (insertOnce acc a) (nodup_insertOnce acc a hacc)
      refine ⟨hnd, fun y => ?_⟩
      have h0 : (a :: rest).foldl insertOnce acc = rest.foldl insertOnce (insertOnce acc a) := rfl
      rw [h0, hmem y, mem_insertOnce]
      simp [List.mem_cons]
      tauto

/-- C7 helper: `[...new Set(list)]` has no duplicates. -/
theorem jsSetDedup_nodup (l : List String) : (jsSetDedup l).Nodup :=
  (jsSetDedup_go l [] List.nodup_nil).1

/-- C7 helper: `[...new Set(list)]` holds exactly the list's elements. -/
theorem mem_jsSetDedup (l : List String) (y : String) :
    y ∈ jsSetDedup l ↔ y ∈ l := by
  have h := (jsSetDedup_go l [] List.nodup_nil).2 y
  simpa [jsSetDedup] using h

/-- C7: `pauseMessages` cancels the in-flight tasks by id: when the message
lookup yields nothing it performs no cancellation and leaves the topic
unchanged; otherwise the ids passed to `abortCompletion` are exactly the
distinct non-empty askIds of the topic's 'processing' or 'pending'
messages, each occurring once, and the topic's `isLoading` flag is set to
false. -/
theorem pauseMessages_cancels_each_once (topic : Topic) (msgs : List Message) :
    pauseMessages topic none = ([], topic) ∧
    (pauseMessages topic (some msgs)).1.Nodup ∧
    (∀ aid, aid ∈ (pauseMessages topic (some msgs)).1 ↔
      aid ≠ "" ∧ ∃ m ∈ msgs,
        (m.status = "processing" ∨ m.status = "pending") ∧ m.askId = some aid) ∧
    (pauseMessages topic (some msgs)).2 = { topic with isLoading := false } := by
  refine ⟨rfl, jsSetDedup_nodup _, ?_, rfl⟩
  intro aid
  have h0 : (pauseMessages topic (some msgs)).1 = streamingAskIds msgs := rfl
  rw [h0]
  unfold streamingAskIds
  rw [mem_jsSetDedup]
  constructor
  · intro hmem
    rw [List.mem_filter] at hmem
    obtain ⟨hmem1, hne⟩ := hmem
    rw [List.mem_filterMap] at hmem1
    obtain ⟨m, hm, hask⟩ := hmem1
    rw [List.mem_filter] at hm
    obtain ⟨hmm, hstat⟩ := hm
    refine ⟨by simpa using hne, m, hmm, ?_, hask⟩
    simpa using hstat
  · rintro ⟨hne, m, hmm, hstat, hask⟩
    rw [List.mem_filter]
    refine ⟨?_, by simpa using hne⟩
    rw [List.mem_filterMap]
    refine ⟨m, ?_, hask⟩
    rw [List.mem_filter]
    exact ⟨hmm, by simpa using hstat⟩

/-- C8: when the store holds zero providers, `useAllProviders` returns an
empty list with `isLoading` true even after the query has completed, the
same result it returns while the query is still loading — an empty provider
set is indistinguishable from a still-loading one at the hook's
interface. -/
theorem empty_providers_indistinguishable (transform : DbProviderRow → Provider)
    (t : Nat) :
    useAllProviders transform (some t) (some []) = ⟨[], true⟩ ∧
    useAllProviders transform none none = ⟨[], true⟩ :=
  ⟨rfl, rfl⟩

/-- C9: for a providerId that is empty or whitespace-only, `useProvider`
is inert: the snapshot is `null`, subscribing registers nothing, no gateway
load is triggered, and the hook returns provider `null` with `isLoading`
false. -/
theorem invalid_provider_id_inert (s : ServiceState) (pid : String) (h : Nat)
    (hws : jsTrim pid = "") :
    isValidId pid = false ∧
    useProvider_getSnapshot s pid = none ∧
    useProvider_subscribe s pid h = s ∧
    loadTriggered pid (useProvider_getSnapshot s pid) = false ∧
    useProviderResult s pid (effectIsLoading pid (useProvider_getSnapshot s pid))
      = ⟨none, false⟩ := by
  have hv : isValidId pid = false := by
    simp [isValidId, hws]
  refine ⟨hv, ?_, ?_, ?_, ?_⟩
  · simp [useProvider_getSnapshot, hv]
  · simp [useProvider_subscribe, hv]
  · simp [loadTriggered, hv]
  · simp [useProviderResult, useProvider_getSnapshot, effectIsLoading, hv]

/-- Witness for C9: the whitespace-only id on a concrete state with a
cached entity under a real id. -/
theorem invalid_provider_id_inert_witness :
    isValidId "  " = false ∧
    useProvider_getSnapshot
      ⟨fun i => if i = "p1" then some ⟨"p1", "OpenAI", true⟩ else none,
       none, [], [], none, 0⟩ "  " = none ∧
    useProvider_subscribe
      ⟨fun i => if i = "p1" then some ⟨"p1", "OpenAI", true⟩ else none,
       none, [], [], none, 0⟩ "  " 7
      = ⟨fun i => if i = "p1" then some ⟨"p1", "OpenAI", true⟩ else none,
         none, [], [], none, 0⟩ ∧
    loadTriggered "  "
      (useProvider_getSnapshot
        ⟨fun i => if i = "p1" then some ⟨"p1", "OpenAI", true⟩ else none,
         none, [], [], none, 0⟩ "  ") = false ∧
    useProviderResult
      ⟨fun i => if i = "p1" then some ⟨"p1", "OpenAI", true⟩ else none,
       none, [], [], none, 0⟩ "  "
      (effectIsLoading "  "
        (useProvider_getSnapshot
          ⟨fun i => if i = "p1" then some ⟨"p1", "OpenAI", true⟩ else none,
           none, [], [], none, 0⟩ "  ")) = ⟨none, false⟩ :=
  invalid_provider_id_inert _ "  " 7 (by decide)

/-- C10: The preference configuration tables are total and mutually
consistent: the key list of `DefaultPreferences.default` and the key list of
`PreferenceDescriptions` both coincide with the keys declared in
`PreferenceSchemas['default']`, so their key sets are equal and every
preference key has both a default value and a description. -/
theorem preference_tables_consistent :
    DefaultPreferences_default.map Prod.fst = preferenceSchemaKeys ∧
    PreferenceDescriptions.map Prod.fst = preferenceSchemaKeys ∧
    (preferenceSchemaKeys.all fun k =>
      (DefaultPreferences_default.lookup k).isSome &&
      (PreferenceDescriptions.lookup k).isSome) = true := by
  refine ⟨rfl, rfl, ?_⟩
  decide

end CherryStudio
